import Mathlib

/-!
Shallow embedding of `cert_processor.py` (class `CertProcessor`) from the
mtls-server repository, together with theorems settling the specification
claims about it.

Modelling conventions:
* Files are a finite association list from path to `FileData`; a missing
  entry models an absent file.  `FileData` distinguishes a PEM private key,
  a PEM certificate, and unparseable bytes (`garbage`).
* Python exceptions are the error side of `Except PyError`.  Each operation
  returns the resulting filesystem alongside its `Except` outcome so that
  write effects are visible even when an exception propagates.
* `datetime` instants are seconds since an arbitrary epoch (`Int`);
  `timedelta(hours = h)` is `3600 * h`, `timedelta(days = d)` is `86400 * d`.
* The GnuPG keyring is an external collaborator: its responses
  (`GPGVerifyResult`, `GPGDecryptBehavior`) are inputs to `verify`/`decrypt`.
* Randomness (RSA key material, `x509.random_serial_number`, `uuid.uuid4`)
  is passed in as explicit `Nat` arguments.
-/

deriving instance DecidableEq for Except

namespace CertProcessor

/-- An RSA private key as produced by `rsa.generate_private_key`:
the strength parameters together with the random material that determined
the key pair. -/
structure RSAPrivateKey where
  publicExponent : Nat
  keySize : Nat
  material : Nat
deriving DecidableEq, Repr

/-- The public half of an RSA key (`key.public_key()` in `cryptography`). -/
structure RSAPublicKey where
  publicExponent : Nat
  keySize : Nat
  modulus : Nat
deriving DecidableEq, Repr

/-- `key.public_key()`: the public parameters are determined by the
private key. -/
def RSAPrivateKey.public_key (k : RSAPrivateKey) : RSAPublicKey :=
  ⟨k.publicExponent, k.keySize, k.material⟩

/-- `rsa.generate_private_key(public_exponent, key_size, backend)`, with the
fresh randomness made explicit. -/
def rsa_generate_private_key (publicExponent keySize rand : Nat) : RSAPrivateKey :=
  ⟨publicExponent, keySize, rand⟩

/-- An X.509 name, as built in the source: a single CommonName attribute. -/
structure Name where
  commonName : String
deriving DecidableEq, Repr

/-- The nine boolean flags of an `x509.KeyUsage` extension. -/
structure KeyUsage where
  digital_signature : Bool
  content_commitment : Bool
  key_encipherment : Bool
  data_encipherment : Bool
  key_agreement : Bool
  key_cert_sign : Bool
  crl_sign : Bool
  encipher_only : Bool
  decipher_only : Bool
deriving DecidableEq, Repr

/-- Hash algorithms passed to `CertificateBuilder.sign`. -/
inductive HashAlgorithm where
  | sha256
  | sha1
deriving DecidableEq, Repr

/-- The X.509 extensions that `cert_processor.py` attaches. -/
inductive Extension where
  | subjectKeyIdentifier (digest : Nat)
  | authorityKeyIdentifier (keyIdentifier : Nat) (authorityCertIssuer : Name)
      (authorityCertSerialNumber : Nat)
  | basicConstraints (ca : Bool) (path_length : Option Nat)
  | keyUsage (ku : KeyUsage)
  | subjectAlternativeName (dnsNames : List String)
deriving DecidableEq, Repr

/-- An X.509 certificate as assembled by `x509.CertificateBuilder` and
signed: the builder fields, the extensions with their critical flags in
insertion order, and the signing key and hash from `.sign`. -/
structure Certificate where
  subject : Name
  issuer : Name
  publicKey : RSAPublicKey
  serial : Nat
  notValidBefore : Int
  notValidAfter : Int
  extensions : List (Extension × Bool)
  signedWith : RSAPrivateKey
  sigHash : HashAlgorithm
deriving DecidableEq, Repr

/-- A certificate signing request (already parsed): subject and public key. -/
structure CSR where
  subject : Name
  publicKey : RSAPublicKey
deriving DecidableEq, Repr

/-- Contents of a file on disk: a PEM private key, a PEM certificate, or
bytes that parse as neither. -/
inductive FileData where
  | pemPrivateKey (k : RSAPrivateKey)
  | pemCertificate (c : Certificate)
  | garbage (raw : Nat)
deriving DecidableEq, Repr

/-- The filesystem: an association list from path to contents; the first
entry for a path wins, absence models a missing file. -/
abbrev FS := List (String × FileData)

/-- Contents of the file at `path`, `none` when absent
(`os.path.isfile` false / `open` raising `FileNotFoundError`). -/
def fsRead (fs : FS) (path : String) : Option FileData :=
  fs.lookup path

/-- Writing `d` to `path` (`open(path, mode) ... f.write`): the new entry
shadows any previous one. -/
def fsWrite (fs : FS) (path : String) (d : FileData) : FS :=
  (path, d) :: fs

/-- The Python exceptions this module can raise or observe. -/
inductive PyError where
  | fileNotFoundError
  | valueError
  | attributeError
  | certProcessorInvalidSignatureError
deriving DecidableEq, Repr

/-- `serialization.load_pem_private_key`: returns the key when the bytes
hold a PEM private key, otherwise raises `ValueError`. -/
def load_pem_private_key (d : FileData) : Except PyError RSAPrivateKey :=
  match d with
  | .pemPrivateKey k => .ok k
  | _ => .error .valueError

/-- `x509.load_pem_x509_certificate`: returns the certificate when the
bytes hold one, otherwise raises `ValueError`. -/
def load_pem_x509_certificate (d : FileData) : Except PyError Certificate :=
  match d with
  | .pemCertificate c => .ok c
  | _ => .error .valueError

/-- `open(path, 'rb')` followed by `read()`: an absent file raises
`FileNotFoundError` (a subclass of `OSError`, not of `ValueError`). -/
def openRead (fs : FS) (path : String) : Except PyError FileData :=
  match fsRead fs path with
  | some d => .ok d
  | none => .error .fileNotFoundError

/-- The configuration options `cert_processor.py` reads from section
`mtls`. -/
structure Config where
  ca_key : String
  ca_cert : String
  issuer : String
  alternate_name : String
deriving DecidableEq, Repr

/-- `CertProcessor.get_ca_key` (lines 70-101): try to open and parse the
configured key file; only `ValueError` is caught, in which case a fresh
RSA-4096 key is generated, written through, and returned.  Any other
exception (in particular `FileNotFoundError` from `open`) propagates. -/
def get_ca_key (cfg : Config) (rand : Nat) (fs : FS) :
    Except PyError RSAPrivateKey × FS :=
  let tryBody : Except PyError RSAPrivateKey :=
    match openRead fs cfg.ca_key with
    | .ok d => load_pem_private_key d
    | .error e => .error e
  match tryBody with
  | .ok ca_key => (.ok ca_key, fs)
  | .error .valueError =>
      let key := rsa_generate_private_key 65537 4096 rand
      let key_data := FileData.pemPrivateKey key
      (.ok key, fsWrite fs cfg.ca_key key_data)
  | .error e => (.error e, fs)

/-- `x509.SubjectKeyIdentifier.from_public_key`: a digest determined by the
public key. -/
def subject_key_identifier_digest (pk : RSAPublicKey) : Nat :=
  Nat.pair pk.publicExponent (Nat.pair pk.keySize pk.modulus)

/-- The `x509.KeyUsage(...)` literal built in `get_ca_cert`. -/
def ca_key_usage : KeyUsage :=
  { digital_signature := true
    content_commitment := false
    key_encipherment := false
    data_encipherment := false
    key_agreement := false
    key_cert_sign := true
    crl_sign := true
    encipher_only := false
    decipher_only := false }

/-- The self-signed CA certificate built by `get_ca_cert` when no file
exists: subject = issuer = CommonName from config, the CA key's public
key, validity `[now, now + 365 days]`, SKI/AKI/BasicConstraints/KeyUsage
extensions, signed with the CA key over SHA-256.  The builder's
`not_valid_after` validation trivially passes here, the end instant being
365 days after the start, so it is not modelled on this path. -/
def build_ca_cert (cfg : Config) (key : RSAPrivateKey) (now : Int)
    (serial : Nat) : Certificate :=
  let key_id := subject_key_identifier_digest key.public_key
  let subject : Name := ⟨cfg.issuer⟩
  { subject := subject
    issuer := subject
    publicKey := key.public_key
    serial := serial
    notValidBefore := now
    notValidAfter := now + 365 * 86400
    extensions :=
      [(.subjectKeyIdentifier key_id, false),
       (.authorityKeyIdentifier key_id subject serial, false),
       (.basicConstraints true (some 0), true),
       (.keyUsage ca_key_usage, true)]
    signedWith := key
    sigHash := .sha256 }

/-- `CertProcessor.get_ca_cert` (lines 103-167): if the configured cert
file exists, parse and return it (a parse failure propagates); otherwise
build the self-signed CA certificate, persist it, and return it.
`serialRand` is the value of `x509.random_serial_number()`. -/
def get_ca_cert (cfg : Config) (key : RSAPrivateKey) (now : Int)
    (serialRand : Nat) (fs : FS) : Except PyError Certificate × FS :=
  match fsRead fs cfg.ca_cert with
  | some d =>
      match load_pem_x509_certificate d with
      | .ok c => (.ok c, fs)
      | .error e => (.error e, fs)
  | none =>
      let ca_cert := build_ca_cert cfg key now serialRand
      (.ok ca_cert, fsWrite fs cfg.ca_cert (.pemCertificate ca_cert))

/-- Helper for `pySplit`: split a character list on a separator character,
always producing at least one (possibly empty) piece. -/
def splitOnCharAux (sep : Char) : List Char → List (List Char)
  | [] => [[]]
  | c :: cs =>
      let rest := splitOnCharAux sep cs
      if c = sep then [] :: rest
      else
        match rest with
        | [] => [[c]]
        | r :: rs => (c :: r) :: rs

/-- Python `str.split(sep)` for a one-character separator: note that
`''.split(',') == ['']` — the result is never the empty list. -/
def pySplit (s : String) (sep : Char) : List String :=
  (splitOnCharAux sep s.data).map fun cs => String.mk cs

/-- `uuid.uuid4().int` (Python stdlib): 128 random bits with the version
nibble (bits 76-79) forced to `0100` and the variant bits (62-63) forced
to `10`, leaving 122 free random bits.  `r` supplies those 122 bits:
bits 0-61, then bits 64-75, then bits 80-127 of the result. -/
def uuid4_int (r : Nat) : Nat :=
  r % 2 ^ 62 + 2 * 2 ^ 62 + r / 2 ^ 62 % 2 ^ 12 * 2 ^ 64 + 4 * 2 ^ 76 +
    r / 2 ^ 74 * 2 ^ 80

/-- The leaf certificate assembled by `generate_cert`'s builder chain:
subject and public key from the CSR, issuer from the CA certificate's
subject, serial `uuid.uuid4().int`, validity `[now, now + lifetime hours]`,
a SubjectAlternativeName extension when the comma-split `alternate_name`
list is non-empty, signed with the CA key over SHA-256.  The
`cryptography` library's `CertificateBuilder.not_valid_after` setter
validates that the supplied time does not strictly precede the
already-set `not_valid_before` and raises `ValueError` otherwise (equal
instants are accepted), so for a negative lifetime the builder chain
raises instead of producing a certificate. -/
def build_leaf_cert (cfg : Config) (csr : CSR) (lifetime : Int) (now : Int)
    (ca_pkey : RSAPrivateKey) (caSubject : Name) (uuidRand : Nat) :
    Except PyError Certificate :=
  let lifetime_delta := now + 3600 * lifetime
  if lifetime_delta < now then .error .valueError
  else
    let alts := pySplit cfg.alternate_name ','
    let base : Certificate :=
      { subject := csr.subject
        issuer := caSubject
        publicKey := csr.publicKey
        serial := uuid4_int uuidRand
        notValidBefore := now
        notValidAfter := lifetime_delta
        extensions := []
        signedWith := ca_pkey
        sigHash := .sha256 }
    if alts.length > 0 then
      .ok { base with extensions := [(.subjectAlternativeName alts, false)] }
    else .ok base

/-- `CertProcessor.generate_cert` (lines 169-201): load-or-create the CA
key and certificate, split the configured `alternate_name` on commas,
build the leaf certificate, attach a SubjectAlternativeName extension when
the split list is non-empty, sign with the CA key over SHA-256, and return
the PEM encoding.  The builder's `not_valid_after` validation (see
`build_leaf_cert`) propagates as an uncaught `ValueError` for negative
lifetimes.  `keyRand`, `caSerialRand`, `uuidRand` supply the randomness
of the three random sources in calling order. -/
def generate_cert (cfg : Config) (csr : CSR) (lifetime : Int) (now : Int)
    (keyRand caSerialRand uuidRand : Nat) (fs : FS) :
    Except PyError FileData × FS :=
  match get_ca_key cfg keyRand fs with
  | (.error e, fs1) => (.error e, fs1)
  | (.ok ca_pkey, fs1) =>
    match get_ca_cert cfg ca_pkey now caSerialRand fs1 with
    | (.error e, fs2) => (.error e, fs2)
    | (.ok ca_cert, fs2) =>
      match build_leaf_cert cfg csr lifetime now ca_pkey ca_cert.subject uuidRand with
      | .error e => (.error e, fs2)
      | .ok cert => (.ok (.pemCertificate cert), fs2)

/-- The result object of `gpg.verify_data`: its `valid` flag and the
detail logged on failure. -/
structure GPGVerifyResult where
  valid : Bool
  detail : String
deriving DecidableEq, Repr

/-- `CertProcessor.verify` (lines 55-60): raise
`CertProcessorInvalidSignatureError` when the keyring's result is not
valid; otherwise fall through and return `None` (unit), never a boolean. -/
def verify (verified : GPGVerifyResult) : Except PyError Unit :=
  if verified.valid = false then .error .certProcessorInvalidSignatureError
  else .ok ()

/-- The result object of `gpg.decrypt`: its `ok` status flag, the signer
fingerprint, and the status detail logged on failure. -/
structure GPGDecryptResult where
  ok : Bool
  fingerprint : Option String
  status : String
deriving DecidableEq, Repr

/-- How the keyring collaborator behaves on one `gpg.decrypt` call: it
either raises an exception or returns a result object. -/
inductive GPGDecryptBehavior where
  | raises
  | returns (r : GPGDecryptResult)
deriving DecidableEq, Repr

/-- `CertProcessor.decrypt` (lines 42-53).  When `gpg.decrypt` raises, the
except clause sets `data = None` (the fingerprint was never extracted),
and the subsequent `data.ok` attribute access on `None` raises
`AttributeError`, which propagates to the caller.  When it returns a
result, the fingerprint is extracted; a false `ok` status nullifies the
data; the pair `(data, fingerprint)` is returned. -/
def decrypt (behavior : GPGDecryptBehavior) :
    Except PyError (Option GPGDecryptResult × Option String) :=
  match behavior with
  | .raises => .error .attributeError
  | .returns r =>
      let fingerprint := r.fingerprint
      if r.ok = false then .ok (none, fingerprint)
      else .ok (some r, fingerprint)

/-! ## Helper lemmas -/

/-- `splitOnCharAux` always yields at least one piece. -/
theorem splitOnCharAux_ne_nil (sep : Char) (l : List Char) :
    splitOnCharAux sep l ≠ [] := by
  cases l with
  | nil => simp [splitOnCharAux]
  | cons c cs =>
      simp only [splitOnCharAux]
      split
      · simp
      · split <;> simp

/-- Python `split` never returns the empty list: `''.split(',') == ['']`. -/
theorem pySplit_ne_nil (s : String) (sep : Char) : pySplit s sep ≠ [] := by
  unfold pySplit
  simp [splitOnCharAux_ne_nil]

/-- Every natural below `2 ^ 122` splits into the three fields that
`uuid4_int` scatters into the 128-bit value. -/
theorem nat_decomp_122 (r : Nat) (h : r < 2 ^ 122) :
    ∃ a b c, a < 2 ^ 62 ∧ b < 2 ^ 12 ∧ c < 2 ^ 48 ∧
      r = a + 2 ^ 62 * b + 2 ^ 74 * c := by
  refine ⟨r % 2 ^ 62, r / 2 ^ 62 % 2 ^ 12, r / 2 ^ 62 / 2 ^ 12, ?_, ?_, ?_, ?_⟩ <;>
    omega

/-- `uuid4_int` on a decomposed input: the three fields land at bit
offsets 0, 64 and 80, around the forced variant and version bits. -/
theorem uuid4_int_decomp (a b c : Nat) (ha : a < 2 ^ 62) (hb : b < 2 ^ 12) :
    uuid4_int (a + 2 ^ 62 * b + 2 ^ 74 * c) =
      a + 2 * 2 ^ 62 + b * 2 ^ 64 + 4 * 2 ^ 76 + c * 2 ^ 80 := by
  unfold uuid4_int
  have e1 : (a + 2 ^ 62 * b + 2 ^ 74 * c) % 2 ^ 62 = a := by omega
  have e2 : (a + 2 ^ 62 * b + 2 ^ 74 * c) / 2 ^ 62 = b + 2 ^ 12 * c := by omega
  have e3 : (a + 2 ^ 62 * b + 2 ^ 74 * c) / 2 ^ 74 = c := by omega
  rw [e1, e2, e3]
  have e4 : (b + 2 ^ 12 * c) % 2 ^ 12 = b := by omega
  rw [e4]

/-- `uuid4_int` is injective on its 122 bits of randomness. -/
theorem uuid4_int_injOn (r1 r2 : Nat) (h1 : r1 < 2 ^ 122) (h2 : r2 < 2 ^ 122)
    (h : uuid4_int r1 = uuid4_int r2) : r1 = r2 := by
  obtain ⟨a1, b1, c1, ha1, hb1, hc1, rfl⟩ := nat_decomp_122 r1 h1
  obtain ⟨a2, b2, c2, ha2, hb2, hc2, rfl⟩ := nat_decomp_122 r2 h2
  rw [uuid4_int_decomp a1 b1 c1 ha1 hb1, uuid4_int_decomp a2 b2 c2 ha2 hb2] at h
  omega

/-- The builder fields of a successfully built leaf certificate that do
not depend on the SubjectAlternativeName branch. -/
theorem build_leaf_cert_fields (cfg : Config) (csr : CSR) (lifetime now : Int)
    (ca_pkey : RSAPrivateKey) (caSubject : Name) (uuidRand : Nat)
    (cert : Certificate)
    (h : build_leaf_cert cfg csr lifetime now ca_pkey caSubject uuidRand =
      .ok cert) :
    cert.subject = csr.subject
    ∧ cert.issuer = caSubject
    ∧ cert.publicKey = csr.publicKey
    ∧ cert.serial = uuid4_int uuidRand
    ∧ cert.notValidBefore = now
    ∧ cert.notValidAfter = now + 3600 * lifetime
    ∧ cert.signedWith = ca_pkey
    ∧ cert.sigHash = .sha256 := by
  unfold build_leaf_cert at h
  dsimp only at h
  split at h
  · simp at h
  · split at h <;>
      (simp only [Except.ok.injEq] at h
       subst h
       exact ⟨rfl, rfl, rfl, rfl, rfl, rfl, rfl, rfl⟩)

/-- On a non-negative lifetime the builder's `not_valid_after` validation
passes and a leaf certificate is produced. -/
theorem build_leaf_cert_ok_of_nonneg (cfg : Config) (csr : CSR)
    (lifetime now : Int) (ca_pkey : RSAPrivateKey) (caSubject : Name)
    (uuidRand : Nat) (hl : 0 ≤ lifetime) :
    ∃ cert, build_leaf_cert cfg csr lifetime now ca_pkey caSubject uuidRand =
      .ok cert := by
  unfold build_leaf_cert
  dsimp only
  rw [if_neg (by omega)]
  split <;> exact ⟨_, rfl⟩

/-- On a negative lifetime the builder's `not_valid_after` validation
raises `ValueError`. -/
theorem build_leaf_cert_error_of_neg (cfg : Config) (csr : CSR)
    (lifetime now : Int) (ca_pkey : RSAPrivateKey) (caSubject : Name)
    (uuidRand : Nat) (hl : lifetime < 0) :
    build_leaf_cert cfg csr lifetime now ca_pkey caSubject uuidRand =
      .error .valueError := by
  unfold build_leaf_cert
  dsimp only
  rw [if_pos (by omega)]

/-- The comma-split list is never empty, so every successfully built leaf
certificate carries a SubjectAlternativeName extension listing it. -/
theorem build_leaf_cert_extensions (cfg : Config) (csr : CSR) (lifetime now : Int)
    (ca_pkey : RSAPrivateKey) (caSubject : Name) (uuidRand : Nat)
    (cert : Certificate)
    (h : build_leaf_cert cfg csr lifetime now ca_pkey caSubject uuidRand =
      .ok cert) :
    cert.extensions =
      [(.subjectAlternativeName (pySplit cfg.alternate_name ','), false)] := by
  unfold build_leaf_cert at h
  dsimp only at h
  split at h
  · simp at h
  · rw [if_pos (List.length_pos.mpr (pySplit_ne_nil cfg.alternate_name ','))] at h
    simp only [Except.ok.injEq] at h
    subst h
    rfl

/-- `generate_cert` on a filesystem where both load-or-create stages
succeed and the builder accepts the validity window: the leaf certificate
is returned in PEM and the filesystem is whatever the two stages left
behind. -/
theorem generate_cert_ok (cfg : Config) (csr : CSR) (lifetime now : Int)
    (keyRand caSerialRand uuidRand : Nat) (fs : FS) (ca_pkey : RSAPrivateKey)
    (fs1 : FS) (ca_cert : Certificate) (fs2 : FS) (cert : Certificate)
    (hkey : get_ca_key cfg keyRand fs = (.ok ca_pkey, fs1))
    (hcert : get_ca_cert cfg ca_pkey now caSerialRand fs1 = (.ok ca_cert, fs2))
    (hleaf : build_leaf_cert cfg csr lifetime now ca_pkey ca_cert.subject uuidRand =
      .ok cert) :
    generate_cert cfg csr lifetime now keyRand caSerialRand uuidRand fs =
      (.ok (.pemCertificate cert), fs2) := by
  unfold generate_cert
  rw [hkey]
  dsimp only
  rw [hcert]
  dsimp only
  rw [hleaf]

/-- Inversion: a PEM certificate returned by `generate_cert` is the leaf
certificate successfully built from some CA key and CA subject. -/
theorem generate_cert_pem_inv (cfg : Config) (csr : CSR) (lifetime now : Int)
    (keyRand caSerialRand uuidRand : Nat) (fs : FS) (c : Certificate)
    (h : (generate_cert cfg csr lifetime now keyRand caSerialRand uuidRand fs).1 =
      .ok (.pemCertificate c)) :
    ∃ ca_pkey caSubject,
      build_leaf_cert cfg csr lifetime now ca_pkey caSubject uuidRand = .ok c := by
  unfold generate_cert at h
  split at h
  · simp at h
  · split at h
    · simp at h
    · split at h
      · simp at h
      · rename_i heq
        simp only [Except.ok.injEq, FileData.pemCertificate.injEq] at h
        subst h
        exact ⟨_, _, heq⟩

/-! ## Concrete fixtures used by witnesses and counterexamples -/

/-- A concrete CA key for concrete runs. -/
def testKey : RSAPrivateKey := rsa_generate_private_key 65537 4096 11

/-- A concrete configuration with two alternate DNS names. -/
def testCfg : Config := ⟨"ca.key", "ca.crt", "test-ca", "host1.example,host2.example"⟩

/-- A concrete CA certificate for `testCfg` and `testKey`. -/
def testCACert : Certificate := build_ca_cert testCfg testKey 0 5

/-- A filesystem already holding a valid CA key and CA certificate. -/
def testFS : FS :=
  [("ca.key", .pemPrivateKey testKey), ("ca.crt", .pemCertificate testCACert)]

/-- A concrete parsed CSR. -/
def testCSR : CSR := ⟨⟨"client"⟩, ⟨65537, 4096, 99⟩⟩

/-- The configuration with no alternate DNS names configured. -/
def emptyAltCfg : Config := ⟨"ca.key", "ca.crt", "test-ca", ""⟩

/-- A filesystem whose CA key file holds unparseable bytes while the CA
certificate file is valid. -/
def garbageKeyFS : FS :=
  [("ca.key", .garbage 3), ("ca.crt", .pemCertificate testCACert)]

/-- The concrete leaf certificate of the fixture runs on `testFS` with
`lifetime = 24` and `now = 0`: only the SAN names (from the
configuration) and the uuid4 randomness vary per run. -/
def testLeaf (sanNames : List String) (uuidRand : Nat) : Certificate :=
  { subject := ⟨"client"⟩
    issuer := ⟨"test-ca"⟩
    publicKey := ⟨65537, 4096, 99⟩
    serial := uuid4_int uuidRand
    notValidBefore := 0
    notValidAfter := 86400
    extensions := [(.subjectAlternativeName sanNames, false)]
    signedWith := testKey
    sigHash := .sha256 }

/-! ## Claims -/

/-- C1: the claim says an absent CA key file triggers generation of a new
RSA-4096 key, and only permission/IO read errors are fatal.  The code only
catches `ValueError`, so the `FileNotFoundError` raised by `open` on an
absent file propagates: on a first run with no key file, `get_ca_key` is
fatal instead of generating.  A present-but-invalid key file does
regenerate and write through, as the second conjunct shows. -/
theorem C1_get_ca_key_absent_file_fatal :
    get_ca_key ⟨"ca.key", "ca.crt", "test-ca", ""⟩ 7 [] =
      (.error .fileNotFoundError, ([] : FS))
    ∧ get_ca_key ⟨"ca.key", "ca.crt", "test-ca", ""⟩ 7 [("ca.key", .garbage 3)] =
      (.ok (rsa_generate_private_key 65537 4096 7),
       [("ca.key", .pemPrivateKey (rsa_generate_private_key 65537 4096 7)),
        ("ca.key", .garbage 3)]) := by decide

/-- C2: `verify` raises `CertProcessorInvalidSignatureError` exactly when
the keyring reports the signature not valid, and returns unit (never a
boolean verdict) exactly when the keyring reports it valid. -/
theorem C2_verify_fail_closed (v : GPGVerifyResult) :
    (verify v = .error .certProcessorInvalidSignatureError ↔ v.valid = false)
    ∧ (verify v = .ok () ↔ v.valid = true) := by
  cases hv : v.valid <;> simp [verify, hv]

/-- C3: whenever the CA key and CA certificate stages succeed and the
lifetime is positive, `generate_cert` returns a PEM certificate whose
issuer equals the CA certificate's subject, whose public key equals the
CSR's, and whose validity window is exactly
`[now, now + lifetime hours]`. -/
theorem C3_issue_fields (cfg : Config) (csr : CSR) (lifetime now : Int)
    (keyRand caSerialRand uuidRand : Nat) (fs : FS) (ca_pkey : RSAPrivateKey)
    (fs1 : FS) (ca_cert : Certificate) (fs2 : FS)
    (hpos : 0 < lifetime)
    (hkey : get_ca_key cfg keyRand fs = (.ok ca_pkey, fs1))
    (hcert : get_ca_cert cfg ca_pkey now caSerialRand fs1 = (.ok ca_cert, fs2)) :
    ∃ cert : Certificate,
      (generate_cert cfg csr lifetime now keyRand caSerialRand uuidRand fs).1 =
        .ok (.pemCertificate cert)
      ∧ cert.issuer = ca_cert.subject
      ∧ cert.publicKey = csr.publicKey
      ∧ cert.notValidBefore = now
      ∧ cert.notValidAfter = now + 3600 * lifetime := by
  obtain ⟨cert, hleaf⟩ := build_leaf_cert_ok_of_nonneg cfg csr lifetime now
    ca_pkey ca_cert.subject uuidRand (le_of_lt hpos)
  obtain ⟨-, hiss, hpk, -, hnb, hna, -, -⟩ :=
    build_leaf_cert_fields cfg csr lifetime now ca_pkey ca_cert.subject uuidRand
      cert hleaf
  refine ⟨cert, ?_, hiss, hpk, hnb, hna⟩
  rw [generate_cert_ok cfg csr lifetime now keyRand caSerialRand uuidRand fs
    ca_pkey fs1 ca_cert fs2 cert hkey hcert hleaf]

/-- Witness for C3 at a concrete configuration and filesystem. -/
theorem C3_witness :
    (0 < (24 : Int)
      ∧ get_ca_key testCfg 7 testFS = (.ok testKey, testFS)
      ∧ get_ca_cert testCfg testKey 0 5 testFS = (.ok testCACert, testFS))
    ∧ ∃ cert : Certificate,
        (generate_cert testCfg testCSR 24 0 7 5 9 testFS).1 =
          .ok (.pemCertificate cert)
        ∧ cert.issuer = testCACert.subject
        ∧ cert.publicKey = testCSR.publicKey
        ∧ cert.notValidBefore = 0
        ∧ cert.notValidAfter = 0 + 3600 * 24 :=
  ⟨⟨by decide, by decide, by decide⟩,
   C3_issue_fields testCfg testCSR 24 0 7 5 9 testFS testKey testFS testCACert
     testFS (by decide) (by decide) (by decide)⟩

/-- C4 counterexample: the claim's `validityDays` is caller-supplied, but
`get_ca_cert` takes no such parameter: bootstrapping at `now = 0` always
yields `notValidAfter = 365 days`, so for an intended `validityDays = 30`
the claimed window is wrong. -/
theorem C4_counterexample :
    ((get_ca_cert emptyAltCfg testKey 0 5 []).1.map fun c => c.notValidAfter) =
      .ok (365 * 86400)
    ∧ (365 * 86400 : Int) ≠ 30 * 86400 := by decide

/-- C4 (amended): when no CA certificate file exists, `get_ca_cert`
builds, persists and returns a self-signed certificate with
subject = issuer = `Name⟨issuer⟩`, the CA key's public key, validity
`[now, now + 365 days]` (fixed, not caller-supplied), an SKI derived from
the public key, a self-referential AKI, BasicConstraints CA=true with
pathLen=0, KeyUsage with exactly digitalSignature, keyCertSign and
cRLSign set, signed with the CA key over SHA-256. -/
theorem C4_bootstrap_self_signed (cfg : Config) (key : RSAPrivateKey) (now : Int)
    (serialRand : Nat) (fs : FS)
    (habs : fsRead fs cfg.ca_cert = none) :
    ∃ c : Certificate,
      get_ca_cert cfg key now serialRand fs =
        (.ok c, fsWrite fs cfg.ca_cert (.pemCertificate c))
      ∧ c.subject = ⟨cfg.issuer⟩
      ∧ c.issuer = ⟨cfg.issuer⟩
      ∧ c.publicKey = key.public_key
      ∧ c.notValidBefore = now
      ∧ c.notValidAfter = now + 365 * 86400
      ∧ c.extensions =
          [(.subjectKeyIdentifier (subject_key_identifier_digest key.public_key),
            false),
           (.authorityKeyIdentifier (subject_key_identifier_digest key.public_key)
              ⟨cfg.issuer⟩ serialRand, false),
           (.basicConstraints true (some 0), true),
           (.keyUsage ⟨true, false, false, false, false, true, true, false, false⟩,
            true)]
      ∧ c.signedWith = key
      ∧ c.sigHash = .sha256 := by
  refine ⟨build_ca_cert cfg key now serialRand, ?_, rfl, rfl, rfl, rfl, rfl, rfl,
    rfl, rfl⟩
  unfold get_ca_cert
  rw [habs]

/-- Witness for C4 on the empty filesystem. -/
theorem C4_witness :
    fsRead [] testCfg.ca_cert = none
    ∧ ∃ c : Certificate,
        get_ca_cert testCfg testKey 0 5 [] =
          (.ok c, fsWrite [] testCfg.ca_cert (.pemCertificate c))
        ∧ c.subject = ⟨testCfg.issuer⟩
        ∧ c.issuer = ⟨testCfg.issuer⟩
        ∧ c.publicKey = testKey.public_key
        ∧ c.notValidBefore = 0
        ∧ c.notValidAfter = 0 + 365 * 86400
        ∧ c.extensions =
            [(.subjectKeyIdentifier (subject_key_identifier_digest testKey.public_key),
              false),
             (.authorityKeyIdentifier (subject_key_identifier_digest testKey.public_key)
                ⟨testCfg.issuer⟩ 5, false),
             (.basicConstraints true (some 0), true),
             (.keyUsage ⟨true, false, false, false, false, true, true, false, false⟩,
              true)]
        ∧ c.signedWith = testKey
        ∧ c.sigHash = .sha256 :=
  ⟨by decide, C4_bootstrap_self_signed testCfg testKey 0 5 [] (by decide)⟩

/-- C5: whenever the CA certificate file exists, `get_ca_cert` writes
nothing, its result does not depend on the supplied CA key (or on the
clock or serial randomness: no validation, no regeneration), and when the
file holds a parseable certificate that certificate is returned
unchanged. -/
theorem C5_load_verbatim (cfg : Config) (key key2 : RSAPrivateKey)
    (now now2 : Int) (serialRand serialRand2 : Nat) (fs : FS) (d : FileData)
    (hex : fsRead fs cfg.ca_cert = some d) :
    (get_ca_cert cfg key now serialRand fs).2 = fs
    ∧ get_ca_cert cfg key now serialRand fs =
        get_ca_cert cfg key2 now2 serialRand2 fs
    ∧ ∀ c : Certificate, d = .pemCertificate c →
        get_ca_cert cfg key now serialRand fs = (.ok c, fs) := by
  unfold get_ca_cert
  rw [hex]
  refine ⟨?_, rfl, ?_⟩
  · cases d <;> rfl
  · rintro c rfl
    rfl

/-- Witness for C5 at a concrete filesystem holding a CA certificate. -/
theorem C5_witness :
    fsRead testFS testCfg.ca_cert = some (.pemCertificate testCACert)
    ∧ ((get_ca_cert testCfg testKey 0 5 testFS).2 = testFS
      ∧ get_ca_cert testCfg testKey 0 5 testFS =
          get_ca_cert testCfg (rsa_generate_private_key 65537 4096 42) 77 9 testFS
      ∧ ∀ c : Certificate, FileData.pemCertificate testCACert = .pemCertificate c →
          get_ca_cert testCfg testKey 0 5 testFS = (.ok c, testFS)) :=
  ⟨by decide,
   C5_load_verbatim testCfg testKey (rsa_generate_private_key 65537 4096 42) 0 77
     5 9 testFS (.pemCertificate testCACert) (by decide)⟩

/-- C6: the claim says no exception escapes `decrypt` when the keyring's
decryption raises.  In the code the except clause sets `data = None`, and
the following `data.ok` attribute access on `None` raises
`AttributeError`, which does escape to the caller. -/
theorem C6_decrypt_exception_escapes :
    decrypt .raises = .error .attributeError := rfl

/-- C7 counterexample: with the CA key file holding unparseable bytes,
`generate_cert`'s load-or-create stage regenerates the CA key and
overwrites the key file, so a `generate_cert` call does write the CA key
file. -/
theorem C7_counterexample :
    fsRead garbageKeyFS "ca.key" = some (.garbage 3)
    ∧ fsRead (generate_cert testCfg testCSR 24 0 7 5 9 garbageKeyFS).2 "ca.key" =
        some (.pemPrivateKey (rsa_generate_private_key 65537 4096 7))
    ∧ FileData.garbage 3 ≠ .pemPrivateKey (rsa_generate_private_key 65537 4096 7) := by
  decide

/-- C7 (amended): whenever the CA key file holds a valid PEM private key
and the CA certificate file exists, `generate_cert` leaves the filesystem
(in particular both files) unchanged. -/
theorem C7_frame (cfg : Config) (csr : CSR) (lifetime now : Int)
    (keyRand caSerialRand uuidRand : Nat) (fs : FS) (k : RSAPrivateKey)
    (d : FileData)
    (hkey : fsRead fs cfg.ca_key = some (.pemPrivateKey k))
    (hcert : fsRead fs cfg.ca_cert = some d) :
    (generate_cert cfg csr lifetime now keyRand caSerialRand uuidRand fs).2 = fs := by
  have h1 : get_ca_key cfg keyRand fs = (.ok k, fs) := by
    unfold get_ca_key openRead
    rw [hkey]
    rfl
  unfold generate_cert
  rw [h1]
  dsimp only
  unfold get_ca_cert
  rw [hcert]
  cases d with
  | pemPrivateKey k2 => rfl
  | pemCertificate c =>
      dsimp only [load_pem_x509_certificate]
      split <;> rfl
  | garbage raw => rfl

/-- Witness for C7 at a concrete filesystem with valid key and cert. -/
theorem C7_witness :
    fsRead testFS testCfg.ca_key = some (.pemPrivateKey testKey)
    ∧ fsRead testFS testCfg.ca_cert = some (.pemCertificate testCACert)
    ∧ (generate_cert testCfg testCSR 24 0 7 5 9 testFS).2 = testFS :=
  ⟨by decide, by decide,
   C7_frame testCfg testCSR 24 0 7 5 9 testFS testKey (.pemCertificate testCACert)
     (by decide) (by decide)⟩

/-- C8: the claim says no SAN extension is attached when no alternate
names are configured.  Because `''.split(',') == ['']`, the emptiness
guard `len(alts) > 0` never fires: with `alternate_name = ""` the issued
certificate still carries a SAN extension listing one empty DNS name.
With `"host1.example,host2.example"` the SAN lists exactly those two
names, as the claim's positive scenario states. -/
theorem C8_san_attached_even_when_unconfigured :
    (generate_cert emptyAltCfg testCSR 24 0 7 5 9 testFS).1 =
      .ok (.pemCertificate (testLeaf [""] 9))
    ∧ (testLeaf [""] 9).extensions = [(.subjectAlternativeName [""], false)]
    ∧ (generate_cert testCfg testCSR 24 0 7 5 9 testFS).1 =
        .ok (.pemCertificate (testLeaf ["host1.example", "host2.example"] 9))
    ∧ (testLeaf ["host1.example", "host2.example"] 9).extensions =
        [(.subjectAlternativeName ["host1.example", "host2.example"], false)] := by
  decide

/-- C9: the serial of every certificate `generate_cert` returns is the
`uuid4` integer of that call's fresh randomness, and on the 122-bit
randomness domain distinct samples give distinct serials: two issuances
with different randomness never share a serial. -/
theorem C9_serial_entropy (cfg : Config) (csr : CSR) (lifetime now : Int)
    (keyRand caSerialRand r1 r2 : Nat) (fs : FS) (c1 c2 : Certificate)
    (hr1 : r1 < 2 ^ 122) (hr2 : r2 < 2 ^ 122) (hne : r1 ≠ r2)
    (h1 : (generate_cert cfg csr lifetime now keyRand caSerialRand r1 fs).1 =
      .ok (.pemCertificate c1))
    (h2 : (generate_cert cfg csr lifetime now keyRand caSerialRand r2 fs).1 =
      .ok (.pemCertificate c2)) :
    c1.serial = uuid4_int r1 ∧ c2.serial = uuid4_int r2 ∧ c1.serial ≠ c2.serial := by
  obtain ⟨k1, s1, hleaf1⟩ :=
    generate_cert_pem_inv cfg csr lifetime now keyRand caSerialRand r1 fs c1 h1
  obtain ⟨k2, s2, hleaf2⟩ :=
    generate_cert_pem_inv cfg csr lifetime now keyRand caSerialRand r2 fs c2 h2
  obtain ⟨-, -, -, hs1, -, -, -, -⟩ :=
    build_leaf_cert_fields cfg csr lifetime now k1 s1 r1 c1 hleaf1
  obtain ⟨-, -, -, hs2, -, -, -, -⟩ :=
    build_leaf_cert_fields cfg csr lifetime now k2 s2 r2 c2 hleaf2
  refine ⟨hs1, hs2, ?_⟩
  rw [hs1, hs2]
  intro hcontra
  exact hne (uuid4_int_injOn r1 r2 hr1 hr2 hcontra)

/-- Witness for C9 with randomness 0 and 1. -/
theorem C9_witness :
    ((0 : Nat) < 2 ^ 122 ∧ (1 : Nat) < 2 ^ 122 ∧ (0 : Nat) ≠ 1
      ∧ (generate_cert testCfg testCSR 24 0 7 5 0 testFS).1 =
          .ok (.pemCertificate (testLeaf ["host1.example", "host2.example"] 0))
      ∧ (generate_cert testCfg testCSR 24 0 7 5 1 testFS).1 =
          .ok (.pemCertificate (testLeaf ["host1.example", "host2.example"] 1)))
    ∧ ((testLeaf ["host1.example", "host2.example"] 0).serial = uuid4_int 0
      ∧ (testLeaf ["host1.example", "host2.example"] 1).serial = uuid4_int 1
      ∧ (testLeaf ["host1.example", "host2.example"] 0).serial ≠
          (testLeaf ["host1.example", "host2.example"] 1).serial) :=
  ⟨⟨by decide, by decide, by decide, by decide, by decide⟩,
   C9_serial_entropy testCfg testCSR 24 0 7 5 0 1 testFS
     (testLeaf ["host1.example", "host2.example"] 0)
     (testLeaf ["host1.example", "host2.example"] 1)
     (by decide) (by decide) (by decide) (by decide) (by decide)⟩

/-- C10 counterexample: at `lifetime = -5` on a filesystem with a valid
CA key and certificate, `generate_cert` does not return a certificate:
the builder's `not_valid_after` validation raises `ValueError`, refuting
the claim that a signed certificate is returned for negative lifetimes. -/
theorem C10_counterexample :
    (generate_cert testCfg testCSR (-5) 0 7 5 9 testFS).1 =
      .error .valueError := by decide

/-- C10 (amended): `generate_cert` itself enforces no positivity check on
the lifetime — any int-convertible value reaches the certificate builder.
For `lifetime = 0` it still returns a signed certificate whose
`notValidAfter` is `now + lifetime hours` and hence equal to its
`notValidBefore`; for negative lifetimes the cryptography builder's
`not_valid_after` validation raises `ValueError`, so no certificate is
returned. -/
theorem C10_no_lifetime_check (cfg : Config) (csr : CSR) (lifetime now : Int)
    (keyRand caSerialRand uuidRand : Nat) (fs : FS) (ca_pkey : RSAPrivateKey)
    (fs1 : FS) (ca_cert : Certificate) (fs2 : FS)
    (hl : lifetime ≤ 0)
    (hkey : get_ca_key cfg keyRand fs = (.ok ca_pkey, fs1))
    (hcert : get_ca_cert cfg ca_pkey now caSerialRand fs1 = (.ok ca_cert, fs2)) :
    (lifetime = 0 →
      ∃ cert : Certificate,
        (generate_cert cfg csr lifetime now keyRand caSerialRand uuidRand fs).1 =
          .ok (.pemCertificate cert)
        ∧ cert.signedWith = ca_pkey
        ∧ cert.notValidAfter = now + 3600 * lifetime
        ∧ cert.notValidAfter = cert.notValidBefore)
    ∧ (lifetime < 0 →
      (generate_cert cfg csr lifetime now keyRand caSerialRand uuidRand fs).1 =
        .error .valueError) := by
  constructor
  · rintro rfl
    obtain ⟨cert, hleaf⟩ := build_leaf_cert_ok_of_nonneg cfg csr 0 now ca_pkey
      ca_cert.subject uuidRand le_rfl
    obtain ⟨-, -, -, -, hnb, hna, hsw, -⟩ :=
      build_leaf_cert_fields cfg csr 0 now ca_pkey ca_cert.subject uuidRand
        cert hleaf
    refine ⟨cert, ?_, hsw, hna, ?_⟩
    · rw [generate_cert_ok cfg csr 0 now keyRand caSerialRand uuidRand fs
        ca_pkey fs1 ca_cert fs2 cert hkey hcert hleaf]
    · rw [hna, hnb]
      omega
  · intro hneg
    have hleaf := build_leaf_cert_error_of_neg cfg csr lifetime now ca_pkey
      ca_cert.subject uuidRand hneg
    unfold generate_cert
    rw [hkey]
    dsimp only
    rw [hcert]
    dsimp only
    rw [hleaf]

/-- Witness for C10 with lifetime `0` hours. -/
theorem C10_witness :
    ((0 : Int) ≤ 0
      ∧ get_ca_key testCfg 7 testFS = (.ok testKey, testFS)
      ∧ get_ca_cert testCfg testKey 0 5 testFS = (.ok testCACert, testFS))
    ∧ (((0 : Int) = 0 →
        ∃ cert : Certificate,
          (generate_cert testCfg testCSR 0 0 7 5 9 testFS).1 =
            .ok (.pemCertificate cert)
          ∧ cert.signedWith = testKey
          ∧ cert.notValidAfter = 0 + 3600 * 0
          ∧ cert.notValidAfter = cert.notValidBefore)
      ∧ ((0 : Int) < 0 →
        (generate_cert testCfg testCSR 0 0 7 5 9 testFS).1 =
          .error .valueError)) :=
  ⟨⟨by decide, by decide, by decide⟩,
   C10_no_lifetime_check testCfg testCSR 0 0 7 5 9 testFS testKey testFS
     testCACert testFS (by decide) (by decide) (by decide)⟩

end CertProcessor
